import Mathlib

/-!
Verification of the `sancho` combo-box widget (`src/ComboBox.tsx`).

The widget is a React component family.  We embed the root controller's
interaction state (`selected`, `showPopover`, `expanded`, and the mutable
option registry `options`) as a Lean structure, and each event handler
(`onArrowDown`, `onArrowUp`, `onItemSelect`, `onEscape`, `onKeyDown`,
`onInputChange`, `handleFocus`, `handleBlur`, `handleSelect`) as an explicit
state transition.  JavaScript semantics visible in the source are modelled
explicitly: `Array.prototype.indexOf` returning `-1` when absent, indexing a
JS array out of range yielding `undefined` (here `Option.none`), and the
falsiness of both `null` and the empty string in `if (!selected)`.
Invocations of the optional `onSelect` callback are recorded as an emitted
list of the arguments passed (the argument may be JS `null`, hence
`Option String`).
-/

/-- Interaction state owned by the root `ComboBox` controller
(`ComboBox.tsx` lines 61-68): the option registry ref `options.current`
(the handlers dereference it with the non-null assertion `options.current!`,
so it is a plain list here), the current keyboard selection `selected`
(JS `null`/`undefined` is `none`), and the `showPopover` and `expanded`
state flags. -/
structure ComboBoxState where
  options : List String
  selected : Option String
  showPopover : Bool
  expanded : Bool
deriving Repr, DecidableEq

/-- JavaScript `Array.prototype.indexOf`: index of the first occurrence of
`s`, or `-1` when `s` does not occur. -/
def jsIndexOf : List String → String → Int
  | [], _ => -1
  | x :: xs, s =>
    if x = s then 0
    else
      let r := jsIndexOf xs s
      if r = -1 then -1 else r + 1

/-- JavaScript array subscript `l[i]`: `undefined` (`none`) for a negative
or past-the-end index, otherwise the element. -/
def jsGet (l : List String) (i : Int) : Option String :=
  if 0 ≤ i then l.get? i.toNat else none

/-- `getSelectedIndex` (lines 70-74): `if (!selected) return -1` — both
`null` and the empty string are falsy — otherwise
`options.current!.indexOf(selected)`. -/
def getSelectedIndex (st : ComboBoxState) : Int :=
  match st.selected with
  | none => -1
  | some s => if s = "" then -1 else jsIndexOf st.options s

/-- `onArrowDown` (lines 77-92): with `i` the selected index, if
`i + 1 === opts.length` select `opts[0]`, else select `opts[i + 1]`. -/
def onArrowDown (st : ComboBoxState) : ComboBoxState :=
  let opts := st.options
  let i := getSelectedIndex st
  if i + 1 = (opts.length : Int) then
    { st with selected := jsGet opts 0 }
  else
    { st with selected := jsGet opts (i + 1) }

/-- `onArrowUp` (lines 95-108): if nothing is selected (`i === -1`) select
`opts[opts.length - 1]`, else select `opts[i - 1]` (no lower-bound guard). -/
def onArrowUp (st : ComboBoxState) : ComboBoxState :=
  let opts := st.options
  let i := getSelectedIndex st
  if i = -1 then
    { st with selected := jsGet opts ((opts.length : Int) - 1) }
  else
    { st with selected := jsGet opts (i - 1) }

/-- `onItemSelect` (lines 112-117): `setShowPopover(false)`, then
`onSelect && onSelect(selected as string)` — the current selection is passed
even when it is `null` — then `setSelected(null)`.  `hasOnSelect` records
whether the optional `onSelect` prop was supplied; the second component is
the list of arguments `onSelect` is invoked with. -/
def onItemSelect (hasOnSelect : Bool) (st : ComboBoxState) :
    ComboBoxState × List (Option String) :=
  ({ st with showPopover := false, selected := none },
   if hasOnSelect then [st.selected] else [])

/-- `onEscape` (lines 120-123): `setShowPopover(false); setSelected(null)`;
no callback is invoked. -/
def onEscape (st : ComboBoxState) : ComboBoxState :=
  { st with showPopover := false, selected := none }

/-- Result of one `onKeyDown` event: the updated state, the arguments
`onSelect` was invoked with during the event, and whether
`e.preventDefault()` was called. -/
structure KeyResult where
  state : ComboBoxState
  calls : List (Option String)
  defaultPrevented : Bool
deriving Repr, DecidableEq

/-- `onKeyDown` (lines 132-156): `switch (e.key)` dispatching `ArrowUp`,
`ArrowDown`, `Escape`, `Enter` to the respective handlers, each after
`e.preventDefault()`; any other key falls through the `switch` untouched. -/
def onKeyDown (hasOnSelect : Bool) (st : ComboBoxState) (key : String) :
    KeyResult :=
  if key = "ArrowUp" then ⟨onArrowUp st, [], true⟩
  else if key = "ArrowDown" then ⟨onArrowDown st, [], true⟩
  else if key = "Escape" then ⟨onEscape st, [], true⟩
  else if key = "Enter" then
    let r := onItemSelect hasOnSelect st
    ⟨r.1, r.2, true⟩
  else ⟨st, [], false⟩

/-- `onInputChange` (lines 158-167): `setSelected(null)`, and
`setShowPopover(true)` when the popover is not already shown. -/
def onInputChange (st : ComboBoxState) : ComboBoxState :=
  if !st.showPopover then
    { st with selected := none, showPopover := true }
  else
    { st with selected := none }

/-- `handleFocus` (lines 195-197): `setShowPopover(true)`. -/
def handleFocus (st : ComboBoxState) : ComboBoxState :=
  { st with showPopover := true }

/-- Where `document.activeElement` points when the deferred blur check runs:
the input element, the list container itself, a proper descendant of the
mounted list container, or anything else (including a detached/null list). -/
inductive FocusTarget where
  | input
  | listContainer
  | listDescendant
  | outside
deriving Repr, DecidableEq

/-- The body of the `requestAnimationFrame` callback in `handleBlur`
(lines 173-193): return untouched when the focused element is the input or
the list (`focusedElement == inputRef.current || focusedElement == list`),
or when the mounted list contains it (`list && list.contains(...)`);
otherwise `setShowPopover(false); setSelected(null)`. -/
def handleBlurCheck (st : ComboBoxState) (t : FocusTarget) : ComboBoxState :=
  if t = FocusTarget.input ∨ t = FocusTarget.listContainer then st
  else if t = FocusTarget.listDescendant then st
  else { st with showPopover := false, selected := none }

/-- `handleSelect` (lines 200-204), reached from a clicked option's
`onClick` (lines 395-397): `onSelect && onSelect(value)`, then
`setShowPopover(false); setSelected(null)`. -/
def handleSelect (hasOnSelect : Bool) (st : ComboBoxState) (value : String) :
    ComboBoxState × List (Option String) :=
  ({ st with showPopover := false, selected := none },
   if hasOnSelect then [some value] else [])

/-- `n` consecutive `ArrowDown` presses. -/
def pressArrowDown : Nat → ComboBoxState → ComboBoxState
  | 0, st => st
  | n + 1, st => onArrowDown (pressArrowDown n st)

example :
    (pressArrowDown 4 ⟨["a", "b", "c"], none, false, false⟩).selected
      = some "a" := by decide

example :
    (onArrowUp ⟨["a", "b", "c"], some "a", true, false⟩).selected
      = none := by decide

/-! ## Lemmas about the JavaScript array primitives -/

theorem jsIndexOf_of_not_mem (l : List String) (s : String) (h : s ∉ l) :
    jsIndexOf l s = -1 := by
  induction l with
  | nil => rfl
  | cons x xs ih =>
    have hx : x ≠ s := fun he => h (he ▸ List.mem_cons_self x xs)
    have hxs : s ∉ xs := fun hm => h (List.mem_cons_of_mem x hm)
    simp [jsIndexOf, hx, ih hxs]

theorem jsIndexOf_get? (l : List String) (k : Nat) (v : String)
    (hnd : l.Nodup) (hget : l.get? k = some v) :
    jsIndexOf l v = (k : Int) := by
  induction l generalizing k with
  | nil => simp [List.get?] at hget
  | cons x xs ih =>
    rcases k with _ | k
    · have hv : x = v := by simpa using hget
      simp [jsIndexOf, hv]
    · have hget' : xs.get? k = some v := hget
      have hv : v ∈ xs := List.get?_mem hget'
      have hx : x ∉ xs := (List.nodup_cons.mp hnd).1
      have hxs : xs.Nodup := (List.nodup_cons.mp hnd).2
      have hne : x ≠ v := fun he => hx (he ▸ hv)
      have hr := ih k hxs hget'
      rw [jsIndexOf]
      rw [if_neg hne]
      simp only [hr]
      rw [if_neg (by omega)]
      push_cast
      ring

theorem jsGet_natCast (l : List String) (k : Nat) :
    jsGet l (k : Int) = l.get? k := by
  simp [jsGet]

/-! ## Behaviour of onArrowDown on the registry -/

theorem onArrowDown_options (st : ComboBoxState) :
    (onArrowDown st).options = st.options := by
  rw [onArrowDown]
  split <;> rfl

theorem onArrowDown_of_none (st : ComboBoxState) (hsel : st.selected = none)
    (h0 : st.options ≠ []) :
    (onArrowDown st).selected = st.options.get? 0 := by
  have hlen : 0 < st.options.length := List.length_pos.mpr h0
  have hidx : getSelectedIndex st = -1 := by
    simp [getSelectedIndex, hsel]
  rw [onArrowDown]
  simp only [hidx]
  rw [if_neg (by omega)]
  norm_num [jsGet]

theorem onArrowDown_step (opts : List String) (hnd : opts.Nodup)
    (hne : "" ∉ opts) (k : Nat) (st : ComboBoxState)
    (hopts : st.options = opts) (hsel : st.selected = opts.get? k)
    (hk : k < opts.length) :
    (onArrowDown st).selected = opts.get? ((k + 1) % opts.length) := by
  obtain ⟨v, hv⟩ : ∃ v, opts.get? k = some v := by
    rw [List.get?_eq_get hk]; exact ⟨_, rfl⟩
  have hvmem : v ∈ opts := List.get?_mem hv
  have hvne : v ≠ "" := fun he => hne (he ▸ hvmem)
  have hsel' : st.selected = some v := by rw [hsel, hv]
  have hidx : getSelectedIndex st = (k : Int) := by
    simp only [getSelectedIndex, hsel']
    rw [if_neg hvne, hopts]
    exact jsIndexOf_get? opts k v hnd hv
  rw [onArrowDown]
  simp only [hidx, hopts]
  by_cases hlast : k + 1 = opts.length
  · rw [if_pos (by omega)]
    have : (k + 1) % opts.length = 0 := by rw [hlast, Nat.mod_self]
    rw [this]
    show jsGet opts 0 = opts.get? 0
    norm_num [jsGet]
  · rw [if_neg (by omega)]
    have hmod : (k + 1) % opts.length = k + 1 := Nat.mod_eq_of_lt (by omega)
    rw [hmod]
    show jsGet opts ((k : Int) + 1) = opts.get? (k + 1)
    have hcast : (k : Int) + 1 = ((k + 1 : Nat) : Int) := by push_cast; ring
    rw [hcast, jsGet_natCast]

theorem pressArrowDown_formula (opts : List String) (hnd : opts.Nodup)
    (hne : "" ∉ opts) (h0 : opts ≠ []) (st : ComboBoxState)
    (hopts : st.options = opts) (hsel : st.selected = none) :
    ∀ n, 1 ≤ n →
      (pressArrowDown n st).options = opts ∧
      (pressArrowDown n st).selected = opts.get? ((n - 1) % opts.length) := by
  have hlen : 0 < opts.length := List.length_pos.mpr h0
  intro n hn
  induction n with
  | zero => omega
  | succ m ih =>
    rcases Nat.eq_zero_or_pos m with hm | hm
    · subst hm
      constructor
      · rw [pressArrowDown, pressArrowDown, onArrowDown_options, hopts]
      · rw [pressArrowDown, pressArrowDown]
        have := onArrowDown_of_none st hsel (by rw [hopts]; exact h0)
        rw [this, hopts]
        norm_num
    · obtain ⟨ihopts, ihsel⟩ := ih hm
      have hk : (m - 1) % opts.length < opts.length := Nat.mod_lt _ hlen
      constructor
      · rw [pressArrowDown, onArrowDown_options, ihopts]
      · rw [pressArrowDown]
        have hstep := onArrowDown_step opts hnd hne ((m - 1) % opts.length)
          (pressArrowDown m st) ihopts ihsel hk
        rw [hstep]
        have : ((m - 1) % opts.length + 1) % opts.length = m % opts.length := by
          rw [Nat.mod_add_mod]
          have : m - 1 + 1 = m := by omega
          rw [this]
        rw [this]
        norm_num

/-! ## Render-lifecycle model of the option registry

`ComboBoxList` (lines 326-331) runs a layout effect with no dependency
array: after every render it sets `options.current = []`, and its cleanup —
run before the next render's effect and on unmount — also sets
`options.current = []`.  `ComboBoxOption` (lines 387-391) runs a passive
effect with no dependency array: after every render it pushes its `value`
onto `options.current` when that ref is non-null (the push is not guarded
against the value already being present).  The host framework runs all
layout effects of a commit before any of its passive effects, and runs the
option rows' passive effects in tree order, i.e. in rendered order.  The
registry ref has JS type `string[] | null`, embedded as
`Option (List String)`. -/

/-- The `ComboBoxList` layout effect body (line 327): `options.current = []`. -/
def listMountEffect (_reg : Option (List String)) : Option (List String) :=
  some []

/-- The `ComboBoxList` layout-effect cleanup (line 329), run on unmount:
`options.current = []`. -/
def listCleanupEffect (_reg : Option (List String)) : Option (List String) :=
  some []

/-- The `ComboBoxOption` effect body (lines 388-390):
`if (options.current) options.current.push(value)`. -/
def optionRenderEffect (reg : Option (List String)) (value : String) :
    Option (List String) :=
  match reg with
  | none => none
  | some l => some (l ++ [value])

/-- One completed render pass: the list's layout effect resets the registry,
then each rendered option's effect appends its value, in rendered order. -/
def completedRenderPass (reg : Option (List String))
    (rendered : List String) : Option (List String) :=
  rendered.foldl optionRenderEffect (listMountEffect reg)

/-! ## Render model of the context-missing error

`ComboBoxInput` (lines 253-255), `ComboBoxList` (lines 312-314) and
`ComboBoxOption` (lines 381-383) each read the context and throw
synchronously when it is absent; all three throw the same (copy-pasted)
message.  Rendering is embedded as an `Except`-valued check: the DOM output
is irrelevant to the error path and abstracted to `Unit`; no other `throw`
occurs anywhere in the source, so every other operation in this development
is a total function. -/

/-- The context value published by the root `ComboBox` (lines 207-229),
reduced to the parts the embedding tracks. -/
structure ContextModel where
  state : ComboBoxState
  hasOnSelect : Bool
  listId : String
deriving Repr, DecidableEq

/-- Rendering `ComboBoxInput` (lines 251-255): throws when the context is
absent, otherwise renders. -/
def renderComboBoxInput : Option ContextModel → Except String Unit
  | none =>
    Except.error "ComboBoxInput must be wrapped in a ComboBox component"
  | some _ => Except.ok ()

/-- Rendering `ComboBoxList` (lines 310-314): throws when the context is
absent (the message names `ComboBoxInput`, copy-pasted in the source),
otherwise renders. -/
def renderComboBoxList : Option ContextModel → Except String Unit
  | none =>
    Except.error "ComboBoxInput must be wrapped in a ComboBox component"
  | some _ => Except.ok ()

/-- Rendering `ComboBoxOption` with its `value` prop (lines 374-383):
throws when the context is absent (same copy-pasted message), otherwise
renders. -/
def renderComboBoxOption : Option ContextModel → String → Except String Unit
  | none, _ =>
    Except.error "ComboBoxInput must be wrapped in a ComboBox component"
  | some _, _ => Except.ok ()

theorem foldl_optionRenderEffect (rendered : List String) :
    ∀ acc : List String,
      rendered.foldl optionRenderEffect (some acc) = some (acc ++ rendered) := by
  induction rendered with
  | nil => intro acc; simp
  | cons x xs ih =>
    intro acc
    rw [List.foldl_cons]
    show xs.foldl optionRenderEffect (some (acc ++ [x])) = _
    rw [ih (acc ++ [x])]
    simp

/-! ## Claim theorems -/

/-- Claim C1, counterexample to the claim as stated: it quantifies over
every non-empty registry, but on `["a", "a", "b"]` (a duplicated value) the
third `ArrowDown` press from no selection selects `"a"`, not the element
`"b"` at index `(3 - 1) % 3 = 2`, because `getSelectedIndex` uses
`indexOf`, which returns the first occurrence; and on `["", "b"]` (an
empty-string value) the second press selects `""`, not the element `"b"` at
index `(2 - 1) % 2 = 1`, because the empty string is falsy in
`if (!selected)`. -/
theorem arrowDown_cycle_counterexample :
    (pressArrowDown 3 ⟨["a", "a", "b"], none, false, false⟩).selected
        = some "a" ∧
    ["a", "a", "b"].get? ((3 - 1) % 3) = some "b" ∧
    some "a" ≠ some "b" ∧
    (pressArrowDown 2 ⟨["", "b"], none, false, false⟩).selected = some "" ∧
    ["", "b"].get? ((2 - 1) % 2) = some "b" ∧
    some "" ≠ some "b" := by decide

/-- Claim C1 (amended: the registry's values must be pairwise distinct and
non-empty): for every such non-empty registry, for all sequences of
`ArrowDown` presses starting from no selection, the n-th press selects the
registry element at index `(n - 1) % length`; in particular, when the
current selection is the last registry element, the next `ArrowDown`
selects index `0`. -/
theorem arrowDown_cycle_spec (opts : List String) (hnd : opts.Nodup)
    (hne : "" ∉ opts) (h0 : opts ≠ []) :
    (∀ st : ComboBoxState, st.options = opts → st.selected = none →
      ∀ n, 1 ≤ n →
        (pressArrowDown n st).selected = opts.get? ((n - 1) % opts.length)) ∧
    (∀ st : ComboBoxState, st.options = opts →
      st.selected = opts.get? (opts.length - 1) →
      (onArrowDown st).selected = opts.get? 0) := by
  constructor
  · intro st hopts hsel n hn
    exact (pressArrowDown_formula opts hnd hne h0 st hopts hsel n hn).2
  · intro st hopts hsel
    have hlen : 0 < opts.length := List.length_pos.mpr h0
    have hk : opts.length - 1 < opts.length := by omega
    have hstep :=
      onArrowDown_step opts hnd hne (opts.length - 1) st hopts hsel hk
    have hmod : (opts.length - 1 + 1) % opts.length = 0 := by
      have h1 : opts.length - 1 + 1 = opts.length := by omega
      rw [h1, Nat.mod_self]
    rwa [hmod] at hstep

/-- Witness for C1 at the registry `["a", "b", "c"]`: the fourth press
selects index `(4 - 1) % 3 = 0`, and one press from the last element
selects index `0`. -/
theorem arrowDown_cycle_spec_witness :
    (pressArrowDown 4 ⟨["a", "b", "c"], none, true, false⟩).selected
        = ["a", "b", "c"].get? ((4 - 1) % ["a", "b", "c"].length) ∧
    (onArrowDown ⟨["a", "b", "c"], some "c", true, false⟩).selected
        = ["a", "b", "c"].get? 0 :=
  ⟨(arrowDown_cycle_spec ["a", "b", "c"] (by decide) (by decide)
      (by decide)).1 _ rfl rfl 4 (by decide),
   (arrowDown_cycle_spec ["a", "b", "c"] (by decide) (by decide)
      (by decide)).2 _ rfl (by decide)⟩

/-- Claim C2: on a non-empty registry, `onArrowUp` with no current selection
selects the last registry element (wrap-to-end); with a current selection at
index `i ≥ 0` it selects `opts[i - 1]` with no lower-bound guard, so at
index `0` it performs the out-of-range lookup `opts[-1]`, which yields
`undefined` (`none`). -/
theorem arrowUp_spec (st : ComboBoxState) :
    (st.selected = none → st.options ≠ [] →
      (onArrowUp st).selected = st.options.get? (st.options.length - 1)) ∧
    (∀ i : Int, getSelectedIndex st = i → 0 ≤ i →
      (onArrowUp st).selected = jsGet st.options (i - 1)) ∧
    (getSelectedIndex st = 0 → (onArrowUp st).selected = none) := by
  have hmid : ∀ i : Int, getSelectedIndex st = i → 0 ≤ i →
      (onArrowUp st).selected = jsGet st.options (i - 1) := by
    intro i hi hpos
    rw [onArrowUp]
    simp only [hi]
    rw [if_neg (by omega)]
  refine ⟨?_, hmid, ?_⟩
  · intro hsel h0
    have hlen : 0 < st.options.length := List.length_pos.mpr h0
    have hidx : getSelectedIndex st = -1 := by simp [getSelectedIndex, hsel]
    rw [onArrowUp]
    simp only [hidx]
    rw [if_pos trivial]
    show jsGet st.options ((st.options.length : Int) - 1) = _
    rw [jsGet, if_pos (by omega)]
    have ht : ((st.options.length : Int) - 1).toNat = st.options.length - 1 := by
      omega
    rw [ht]
  · intro h0
    have := hmid 0 h0 (by omega)
    rw [this]
    rw [jsGet, if_neg (by omega)]

/-- Witness for C2 at the registry `["a", "b", "c"]`: `ArrowUp` from no
selection selects `"c"`; `ArrowUp` from `"a"` (index 0) looks up `opts[-1]`
and the selection becomes `none`. -/
theorem arrowUp_spec_witness :
    (onArrowUp ⟨["a", "b", "c"], none, true, false⟩).selected
        = ["a", "b", "c"].get? (["a", "b", "c"].length - 1) ∧
    (onArrowUp ⟨["a", "b", "c"], some "a", true, false⟩).selected = none :=
  ⟨(arrowUp_spec ⟨["a", "b", "c"], none, true, false⟩).1 rfl (by decide),
   (arrowUp_spec ⟨["a", "b", "c"], some "a", true, false⟩).2.2 (by decide)⟩

/-- Claim C3: pressing `Enter` with a non-empty current selection invokes
the supplied `onSelect` callback exactly once, with the selected value, and
afterwards the selection is cleared and the popover hidden. -/
theorem itemSelect_with_selection (st : ComboBoxState) (v : String)
    (h : st.selected = some v) :
    onItemSelect true st
      = ({ st with showPopover := false, selected := none }, [some v]) := by
  simp [onItemSelect, h]

/-- Witness for C3: `Enter` with selection `"b"` on registry `["a", "b"]`. -/
theorem itemSelect_with_selection_witness :
    onItemSelect true ⟨["a", "b"], some "b", true, false⟩
      = (⟨["a", "b"], none, false, false⟩, [some "b"]) :=
  itemSelect_with_selection ⟨["a", "b"], some "b", true, false⟩ "b" rfl

/-- Claim C4: `Escape` — both via `onEscape` and via `onKeyDown` — hides the
popover and clears the selection, invokes `onSelect` on nothing
(the emitted call list is empty), and suppresses the browser default. -/
theorem escape_spec (hs : Bool) (st : ComboBoxState) :
    onEscape st = { st with showPopover := false, selected := none } ∧
    onKeyDown hs st "Escape"
      = ⟨{ st with showPopover := false, selected := none }, [], true⟩ := by
  constructor
  · rfl
  · rw [onKeyDown, if_neg (by decide), if_neg (by decide), if_pos rfl]
    rfl

/-- Claim C5: `onKeyDown` dispatches exactly by key name — `ArrowUp`,
`ArrowDown`, `Escape`, `Enter` go to the respective handlers with the
browser default suppressed — and every other key leaves the state unchanged,
emits no callback, and does not suppress the default. -/
theorem keyDown_dispatch (hs : Bool) (st : ComboBoxState) :
    onKeyDown hs st "ArrowUp" = ⟨onArrowUp st, [], true⟩ ∧
    onKeyDown hs st "ArrowDown" = ⟨onArrowDown st, [], true⟩ ∧
    onKeyDown hs st "Escape" = ⟨onEscape st, [], true⟩ ∧
    onKeyDown hs st "Enter"
      = ⟨(onItemSelect hs st).1, (onItemSelect hs st).2, true⟩ ∧
    ∀ key : String, key ≠ "ArrowUp" → key ≠ "ArrowDown" → key ≠ "Escape" →
      key ≠ "Enter" → onKeyDown hs st key = ⟨st, [], false⟩ := by
  refine ⟨?_, ?_, ?_, ?_, ?_⟩
  · rw [onKeyDown, if_pos rfl]
  · rw [onKeyDown, if_neg (by decide), if_pos rfl]
  · rw [onKeyDown, if_neg (by decide), if_neg (by decide), if_pos rfl]
  · rw [onKeyDown, if_neg (by decide), if_neg (by decide), if_neg (by decide),
      if_pos rfl]
  · intro key h1 h2 h3 h4
    rw [onKeyDown, if_neg h1, if_neg h2, if_neg h3, if_neg h4]

/-- Witness for C5: the unhandled key `"Tab"` leaves the state unchanged and
does not suppress the default. -/
theorem keyDown_dispatch_witness :
    onKeyDown true ⟨["a"], some "a", true, false⟩ "Tab"
      = ⟨⟨["a"], some "a", true, false⟩, [], false⟩ :=
  (keyDown_dispatch true ⟨["a"], some "a", true, false⟩).2.2.2.2 "Tab"
    (by decide) (by decide) (by decide) (by decide)

/-- Claim C6: clicking an option with value `v` invokes the supplied
`onSelect` callback with `v`, clears the selection and hides the popover,
for every current interaction state. -/
theorem handleSelect_spec (st : ComboBoxState) (value : String) :
    handleSelect true st value
      = ({ st with showPopover := false, selected := none }, [some value]) :=
  rfl

/-- Claim C7: `handleFocus` always shows the popover, and the deferred blur
check hides the popover and clears the selection exactly when the newly
focused element is neither the input, nor the list container, nor a
descendant of the list container; otherwise it leaves the state unchanged. -/
theorem focus_blur_spec (st : ComboBoxState) (t : FocusTarget) :
    (handleFocus st).showPopover = true ∧
    handleBlurCheck st t
      = if t = FocusTarget.outside
        then { st with showPopover := false, selected := none }
        else st := by
  refine ⟨rfl, ?_⟩
  cases t <;> rfl

/-- Claim C8: rendering the input, list, or option element without the root
controller's context raises the context-missing error synchronously, and
with the context present each renders without error — the embedding's only
error path. -/
theorem context_missing_spec (c : ContextModel) (v : String) :
    renderComboBoxInput none
        = Except.error "ComboBoxInput must be wrapped in a ComboBox component" ∧
    renderComboBoxList none
        = Except.error "ComboBoxInput must be wrapped in a ComboBox component" ∧
    renderComboBoxOption none v
        = Except.error "ComboBoxInput must be wrapped in a ComboBox component" ∧
    renderComboBoxInput (some c) = Except.ok () ∧
    renderComboBoxList (some c) = Except.ok () ∧
    renderComboBoxOption (some c) v = Except.ok () :=
  ⟨rfl, rfl, rfl, rfl, rfl, rfl⟩

/-- Claim C9: after every completed render pass the registry holds exactly
the rendered option values in rendered order; the list container's mount
effect and unmount cleanup both reset the registry to empty; and an
option's effect appends its value unconditionally (unguarded against a
duplicate of an already-present value). -/
theorem registry_render_invariant (reg : Option (List String))
    (rendered : List String) (l : List String) (v : String) :
    completedRenderPass reg rendered = some rendered ∧
    listMountEffect reg = some [] ∧
    listCleanupEffect reg = some [] ∧
    optionRenderEffect (some l) v = some (l ++ [v]) := by
  refine ⟨?_, rfl, rfl, rfl⟩
  rw [completedRenderPass]
  show rendered.foldl optionRenderEffect (some []) = some rendered
  rw [foldl_optionRenderEffect rendered []]
  simp

/-- Claim C10: pressing `Enter` with no current selection still invokes the
supplied `onSelect` callback — passing the empty selection (`null`) — and
still hides the popover; the invocation is not guarded by a
non-empty-selection check. -/
theorem itemSelect_without_selection (st : ComboBoxState)
    (h : st.selected = none) :
    onItemSelect true st
      = ({ st with showPopover := false, selected := none }, [none]) := by
  simp [onItemSelect, h]

/-- Witness for C10: `Enter` with no selection on registry `["a"]`. -/
theorem itemSelect_without_selection_witness :
    onItemSelect true ⟨["a"], none, true, false⟩
      = (⟨["a"], none, false, false⟩, [none]) :=
  itemSelect_without_selection ⟨["a"], none, true, false⟩ rfl
